import Mathlib

/-!
Verification of the IPL analytics query layer (`cricket_analytics_app.py`).

The two source tables are embedded as lists of rows; each pandas pipeline
(filter / groupby / aggregate / sort / head) is translated into an
executable Lean function over those lists, and the spec's properties are
proved about the translations.
-/

/-- A row of `matches.csv` as the app reads it (pre-normalization: the raw
date string is kept; `year` is derived by `parseYear`). -/
structure MatchRow where
  id : Nat
  date : String
  season : String
  venue : String
  team1 : String
  team2 : String
  toss_winner : String
  toss_decision : String
  winner : String
  result : String
deriving DecidableEq

/-- A row of `deliveries.csv`. `dismissal_kind` and `fielder` are nullable. -/
structure DeliveryRow where
  match_id : Nat
  inning : Nat
  batting_team : String
  batter : String
  bowler : String
  non_striker : String
  batsman_runs : Nat
  total_runs : Nat
  ball : Nat
  is_wicket : Nat
  dismissal_kind : Option String
  fielder : Option String
deriving DecidableEq

/-! ### Date normalization (`pd.to_datetime(..., errors='coerce')` + `.dt.year`) -/

/-- Split a character list at every dash. -/
def splitDashAux : List Char → List Char → List (List Char)
  | [], acc => [acc.reverse]
  | c :: cs, acc =>
    if c = '-' then acc.reverse :: splitDashAux cs []
    else splitDashAux cs (c :: acc)

/-- All characters are decimal digits and the list is nonempty. -/
def allDigits (cs : List Char) : Bool :=
  !cs.isEmpty && cs.all fun c => decide ('0' ≤ c) && decide (c ≤ '9')

/-- Numeric value of a digit string. -/
def digitsVal (cs : List Char) : Nat :=
  cs.foldl (fun n c => n * 10 + (c.toNat - 48)) 0

/-- `errors='coerce'` date parsing, modelling ISO `YYYY-MM-DD` dates: an
unparseable date yields `none` (pandas `NaT`, hence a null year) instead of
failing the run. -/
def parseYear (date : String) : Option Nat :=
  match splitDashAux date.data [] with
  | [y, m, d] =>
    if allDigits y && allDigits m && allDigits d
        && (y.length == 4)
        && (1 ≤ digitsVal m && digitsVal m ≤ 12)
        && (1 ≤ digitsVal d && digitsVal d ≤ 31) then
      some (digitsVal y)
    else none
  | _ => none

/-- The derived `year` column of a match row. -/
def matchYear (m : MatchRow) : Option Nat := parseYear m.date

/-- `matches['year'].between(lo, hi)`: a null year compares as `false`. -/
def yearBetween (m : MatchRow) (lo hi : Nat) : Bool :=
  match matchYear m with
  | some y => decide (lo ≤ y) && decide (y ≤ hi)
  | none => false

/-- `matches['year'] > t`: a null year compares as `false`. -/
def yearGt (m : MatchRow) (t : Nat) : Bool :=
  match matchYear m with
  | some y => decide (t < y)
  | none => false

/-! ### Classification rules (source lines 101-109, 325-329) -/

/-- `bat_first_won(row)` from the source: `False` on tie / no result, else
compares toss winner with match winner according to the toss decision. -/
def bat_first_won (m : MatchRow) : Bool :=
  if m.result == "tie" || m.result == "no result" then false
  else if m.toss_decision == "bat" then m.toss_winner == m.winner
  else m.toss_winner != m.winner

/-- `field_first_won(row)` from the source. -/
def field_first_won (m : MatchRow) : Bool :=
  if m.result == "tie" || m.result == "no result" then false
  else if m.toss_decision == "field" then m.toss_winner == m.winner
  else m.toss_winner != m.winner

/-- `decidedMatch m` is true when the match has a decisive result. -/
def decidedMatch (m : MatchRow) : Bool :=
  !(m.result == "tie" || m.result == "no result")

/-- The stubbed `is_chase_win(row)` placeholder from the source (lines
317-320): it returns `False` for every row. -/
def is_chase_win (won : Bool) : Bool :=
  if !won then false else false

/-- `check_chase(row)` from the source (lines 325-329), the classification
actually applied to each veteran-team row. -/
def check_chase (won : Bool) (toss_decision toss_winner team : String) : Bool :=
  if !won then false
  else if toss_decision == "field" && toss_winner == team then true
  else if toss_decision == "bat" && toss_winner != team then true
  else false

/-! ### Schema / join layer -/

/-- A row of `merged_data`: a delivery enriched with its (possibly absent)
match metadata, as produced by the left outer merge on `match_id = id`. -/
structure MergedRow where
  delivery : DeliveryRow
  matchRow : Option MatchRow
deriving DecidableEq

/-- `deliveries.merge(matches, left_on='match_id', right_on='id', how='left')`:
one output row per (delivery, matching match) pair; a delivery with no
matching match id is kept once with null match fields. -/
def mergedData (ds : List DeliveryRow) (ms : List MatchRow) : List MergedRow :=
  ds.flatMap fun d =>
    let hits := ms.filter fun m => m.id == d.match_id
    if hits.isEmpty then [⟨d, none⟩] else hits.map fun m => ⟨d, some m⟩

/-! ### Veteran sets and year filters (source lines 33-35, 49-50) -/

/-- `matches[matches['year'].between(2008, 2012)]['id']`. -/
def earlySeasonIds (ms : List MatchRow) : List Nat :=
  (ms.filter fun m => yearBetween m 2008 2012).map fun m => m.id

/-- `early_players_bat`: batters appearing in any 2008-2012 delivery. -/
def earlyPlayersBat (ds : List DeliveryRow) (ms : List MatchRow) : List String :=
  ((ds.filter fun d => (earlySeasonIds ms).contains d.match_id).map
    fun d => d.batter).dedup

/-- `early_players_bowl`: bowlers appearing in any 2008-2012 delivery. -/
def earlyPlayersBowl (ds : List DeliveryRow) (ms : List MatchRow) : List String :=
  ((ds.filter fun d => (earlySeasonIds ms).contains d.match_id).map
    fun d => d.bowler).dedup

/-- `matches[matches['year'] > 2020]['id']`. -/
def post2020MatchIds (ms : List MatchRow) : List Nat :=
  (ms.filter fun m => yearGt m 2020).map fun m => m.id

/-- `post_2020_data`: deliveries belonging to a post-2020 match. -/
def post2020Data (ds : List DeliveryRow) (ms : List MatchRow) : List DeliveryRow :=
  ds.filter fun d => (post2020MatchIds ms).contains d.match_id

/-! ### Query 1 / query 4 and their veteran-only variants -/

/-- `fr1_data`: post-2020 deliveries whose batter is not in
`early_players_bat` (note: only the batting-derived veteran list). -/
def fr1Data (ds : List DeliveryRow) (ms : List MatchRow) : List DeliveryRow :=
  (post2020Data ds ms).filter fun d => !(earlyPlayersBat ds ms).contains d.batter

/-- `fr1_vet_data`: post-2020 deliveries whose batter is in `early_players_bat`. -/
def fr1VetData (ds : List DeliveryRow) (ms : List MatchRow) : List DeliveryRow :=
  (post2020Data ds ms).filter fun d => (earlyPlayersBat ds ms).contains d.batter

/-- Dismissal kinds not credited to the bowler. `~Series.isin` on a null
`dismissal_kind` is `True`, so null rows are kept. -/
def bowlerCredited (d : DeliveryRow) : Bool :=
  match d.dismissal_kind with
  | some k => !(["run out", "retired hurt", "obstructing the field"].contains k)
  | none => true

/-- The wicket rows of query 4 (`fr4_data` → `wickets`): post-2020
deliveries by non-veteran bowlers that are bowler-credited wickets. -/
def fr4Wickets (ds : List DeliveryRow) (ms : List MatchRow) : List DeliveryRow :=
  (((post2020Data ds ms).filter
      fun d => !(earlyPlayersBowl ds ms).contains d.bowler).filter
    fun d => d.is_wicket == 1).filter bowlerCredited

/-- The wicket rows of the veteran variant of query 4 (`vet_wickets`). -/
def fr4VetWickets (ds : List DeliveryRow) (ms : List MatchRow) : List DeliveryRow :=
  (((post2020Data ds ms).filter
      fun d => (earlyPlayersBowl ds ms).contains d.bowler).filter
    fun d => d.is_wicket == 1).filter bowlerCredited

/-! ### Grouped score table for query 1 -/

/-- One group of the top-scorers result: a batter and the sum of
`batsman_runs` over the grouped rows. -/
structure ScoreRow where
  player : String
  runs : Nat
deriving DecidableEq

/-- Descending order on total runs. -/
def scoreGE (a b : ScoreRow) : Prop := b.runs ≤ a.runs

instance : DecidableRel scoreGE :=
  fun a b => inferInstanceAs (Decidable (b.runs ≤ a.runs))

instance : IsTotal ScoreRow scoreGE := ⟨fun a b => Nat.le_total b.runs a.runs⟩

instance : IsTrans ScoreRow scoreGE := ⟨fun _ _ _ hab hbc => le_trans hbc hab⟩

/-- Sum of `batsman_runs` of the rows of one batter. -/
def runsFor (rows : List DeliveryRow) (b : String) : Nat :=
  ((rows.filter fun r => r.batter == b).map fun r => r.batsman_runs).sum

/-- Number of rows (balls faced) of one batter. -/
def ballsFor (rows : List DeliveryRow) (b : String) : Nat :=
  (rows.filter fun r => r.batter == b).length

/-- The distinct batters of a delivery list (group keys). -/
def battersOf (rows : List DeliveryRow) : List String :=
  (rows.map fun r => r.batter).dedup

/-- `groupby('batter')['batsman_runs'].sum().sort_values(ascending=False).head(10)`
applied to `fr1_data`: the result of query 1. -/
def topScorers (ds : List DeliveryRow) (ms : List MatchRow) : List ScoreRow :=
  let rows := fr1Data ds ms
  (((battersOf rows).map fun b => ScoreRow.mk b (runsFor rows b)).insertionSort
      scoreGE).take 10

/-- `value_counts().head(10)` over the bowlers of query 4's wicket rows. -/
def topBowlers (ds : List DeliveryRow) (ms : List MatchRow) : List ScoreRow :=
  let rows := fr4Wickets ds ms
  ((((rows.map fun r => r.bowler).dedup).map
      fun b => ScoreRow.mk b (rows.filter fun r => r.bowler == b).length).insertionSort
    scoreGE).take 10

/-! ### Query 2: power hitters (strike rate), source lines 63-66 -/

/-- One aggregated group before the strike-rate column is added. -/
structure BatStat where
  batter : String
  runs : Nat
  balls : Nat
deriving DecidableEq

/-- One row of the strike-rate result table. -/
structure SRRow where
  batter : String
  runs : Nat
  balls : Nat
  strike_rate : ℚ
deriving DecidableEq

/-- Descending order on strike rate. -/
def srGE (a b : SRRow) : Prop := b.strike_rate ≤ a.strike_rate

instance : DecidableRel srGE :=
  fun a b => inferInstanceAs (Decidable (b.strike_rate ≤ a.strike_rate))

instance : IsTotal SRRow srGE := ⟨fun a b => le_total b.strike_rate a.strike_rate⟩

instance : IsTrans SRRow srGE := ⟨fun _ _ _ hab hbc => le_trans hbc hab⟩

/-- `groupby('batter').agg({'batsman_runs': 'sum', 'ball': 'count'})`. -/
def batStats (rows : List DeliveryRow) : List BatStat :=
  (battersOf rows).map fun b => ⟨b, runsFor rows b, ballsFor rows b⟩

/-- `stats[stats['ball'] >= 50]`: minimum 50 balls faced. -/
def keptStats (rows : List DeliveryRow) : List BatStat :=
  (batStats rows).filter fun s => decide (50 ≤ s.balls)

/-- `strike_rate = (batsman_runs / ball) * 100`. -/
def srOf (s : BatStat) : ℚ := (s.runs : ℚ) / (s.balls : ℚ) * 100

/-- The kept groups with the derived strike-rate column. -/
def srRows (rows : List DeliveryRow) : List SRRow :=
  (keptStats rows).map fun s => ⟨s.batter, s.runs, s.balls, srOf s⟩

/-- `top_sr`: the ≥50-ball groups sorted descending by strike rate,
truncated to the top 10. -/
def top_sr (ds : List DeliveryRow) (ms : List MatchRow) : List SRRow :=
  ((srRows (post2020Data ds ms)).insertionSort srGE).take 10

/-! ### Queries 5/6: venue tables (source lines 111-140) -/

/-- The matches played at one venue (`groupby('venue')` group). -/
def matchesAtVenue (ms : List MatchRow) (v : String) : List MatchRow :=
  ms.filter fun m => m.venue == v

/-- `total_matches=('id', 'count')` for one venue. -/
def venueTotal (ms : List MatchRow) (v : String) : Nat :=
  (matchesAtVenue ms v).length

/-- `bat_first_wins=('bat_first_win', 'sum')` for one venue. -/
def venueBatFirstWins (ms : List MatchRow) (v : String) : Nat :=
  ((matchesAtVenue ms v).map fun m => if bat_first_won m then 1 else 0).sum

/-- `field_first_wins=('field_first_win', 'sum')` for one venue. -/
def venueFieldFirstWins (ms : List MatchRow) (v : String) : Nat :=
  ((matchesAtVenue ms v).map fun m => if field_first_won m then 1 else 0).sum

/-- `wins=('toss_win_match_win', 'sum')` of the toss-impact table. -/
def tossImpactWins (ms : List MatchRow) (v : String) : Nat :=
  ((matchesAtVenue ms v).map fun m => if m.toss_winner == m.winner then 1 else 0).sum

/-- `chase_wins = matches[matches.apply(field_first_won, axis=1)]`, the
match filter of the highest-successful-chases query (no year filter). -/
def chaseWins (ms : List MatchRow) : List MatchRow :=
  ms.filter field_first_won

/-- `catches = deliveries[deliveries['dismissal_kind'] == 'caught']`, the
row filter of the all-time top-fielders query (no year filter). -/
def catches (ds : List DeliveryRow) : List DeliveryRow :=
  ds.filter fun d => d.dismissal_kind == some "caught"

/-! ### Coach tab: veteran-team rows (source lines 242-295, 323-333) -/

/-- One row of the batting-derived player-team map (`batters` /
`player_teams`): distinct `(match_id, batter, batting_team)` triples. -/
structure PlayerTeamRow where
  matchId : Nat
  player : String
  team : String
deriving DecidableEq

/-- `deliveries[['match_id','batter','batting_team']].drop_duplicates()`,
renamed to `(matchId, player, team)` — teams are inferred from batting
appearances only. -/
def playerTeams (ds : List DeliveryRow) : List PlayerTeamRow :=
  (ds.map fun d => PlayerTeamRow.mk d.match_id d.batter d.batting_team).dedup

/-- `all_veterans = set(early_players_bat) | set(early_players_bowl)`. -/
def allVeterans (ds : List DeliveryRow) (ms : List MatchRow) : List String :=
  earlyPlayersBat ds ms ++ earlyPlayersBowl ds ms

/-- `vet_teams`: the player-team rows of veterans. -/
def vetTeams (ds : List DeliveryRow) (ms : List MatchRow) : List PlayerTeamRow :=
  (playerTeams ds).filter fun r => (allVeterans ds ms).contains r.player

/-- One row of `vet_perf` after the merges with `matches` (the inner merge
on `id = match_id`, carrying outcome and toss columns and the derived
`won` flag). -/
structure VetPerfRow where
  matchId : Nat
  player : String
  team : String
  winner : String
  toss_winner : String
  toss_decision : String
  won : Bool
deriving DecidableEq

/-- `vet_perf` (with the toss columns of `vet_perf_full` merged in): inner
join of `vet_teams` with `matches`, plus `won = (team == winner)`. -/
def vetPerf (ds : List DeliveryRow) (ms : List MatchRow) : List VetPerfRow :=
  (vetTeams ds ms).flatMap fun r =>
    (ms.filter fun m => m.id == r.matchId).map fun m =>
      ⟨r.matchId, r.player, r.team, m.winner, m.toss_winner, m.toss_decision,
        r.team == m.winner⟩

/-- Rows contributing to player `p`'s group in any coach-tab aggregate. -/
def playerRows (rows : List VetPerfRow) (p : String) : List VetPerfRow :=
  rows.filter fun r => r.player == p

/-- `matches=('id','count')` of the veteran win% table, per player. -/
def playerMatchCount (rows : List VetPerfRow) (p : String) : Nat :=
  (playerRows rows p).length

/-- `wins=('won','sum')` of the veteran win% table, per player. -/
def playerWinCount (rows : List VetPerfRow) (p : String) : Nat :=
  ((playerRows rows p).filter fun r => r.won).length

/-- `groupby('player')['chase_win'].sum()`, per player. -/
def playerChaseCount (rows : List VetPerfRow) (p : String) : Nat :=
  ((playerRows rows p).filter
    fun r => check_chase r.won r.toss_decision r.toss_winner r.team).length

/-! ## Concrete rows and tables used as witnesses and counterexamples -/

/-- A decided bat-decision match used to instantiate the classification
theorems. -/
def decidedBatMatch : MatchRow :=
  ⟨1, "2021-04-09", "2021", "V", "A", "B", "A", "bat", "A", "normal"⟩

/-- A decided match whose toss decision is neither "bat" nor "field". -/
def oddDecisionMatch : MatchRow :=
  ⟨3, "2021-04-11", "2021", "V", "A", "B", "A", "other", "B", "normal"⟩

/-- A 2008-2012 match (year 2010). -/
def m2010 : MatchRow :=
  ⟨1, "2010-04-01", "2010", "V", "T1", "T2", "T1", "bat", "T1", "normal"⟩

/-- A post-2020 match (year 2021). -/
def m2021 : MatchRow :=
  ⟨2, "2021-04-01", "2021", "V", "T1", "T2", "T1", "bat", "T1", "normal"⟩

/-- A 2010 delivery: X bats, P bowls — so P is a bowler-only veteran. -/
def d2010 : DeliveryRow := ⟨1, 1, "T1", "X", "P", "Y", 1, 1, 1, 0, none, none⟩

/-- A 2021 delivery: the veteran P bats and scores 4. -/
def d2021 : DeliveryRow := ⟨2, 1, "T1", "P", "X", "Y", 4, 4, 1, 0, none, none⟩

/-- Deliveries table of the veteran-set counterexample. -/
def vetD : List DeliveryRow := [d2010, d2021]

/-- Matches table of the veteran-set counterexample. -/
def vetM : List MatchRow := [m2010, m2021]

/-- A post-2020 delivery by batter B, repeated 50 times to reach the
minimum ball count. -/
def dB : DeliveryRow := ⟨2, 1, "T1", "B", "Q", "Y", 1, 1, 1, 0, none, none⟩

/-- Deliveries table of the strike-rate witness: 50 balls by batter B. -/
def srD : List DeliveryRow := List.replicate 50 dB

/-- Matches table of the strike-rate witness. -/
def srM : List MatchRow := [m2021]

/-- Ten decided bat-decision matches at venue V. -/
def venueMs : List MatchRow := List.replicate 10 decidedBatMatch

/-- A match row whose date string cannot be parsed. -/
def mBad : MatchRow := ⟨9, "TBD", "2024", "V", "A", "B", "A", "bat", "A", "normal"⟩

/-- A delivery whose `match_id` (7) matches no match row. -/
def dOrphan : DeliveryRow := ⟨7, 1, "T1", "Z", "Q", "Y", 0, 0, 1, 0, none, none⟩

/-- The match row of the spec's second scenario: toss winner A chose to
field, B won, result normal. -/
def c2Match : MatchRow :=
  ⟨2, "2021-04-10", "2021", "V", "A", "B", "A", "field", "B", "normal"⟩

/-! ## Claim theorems -/

/-- C1 counterexample: P bowled (only) in a 2010 match, so P is in the
veteran set, yet P appears in the result of the exclude-veteran top-scorers
query — query 1 excludes only `early_players_bat`, not the full veteran
set. -/
theorem bowler_only_veteran_in_top_scorers :
    ("P" ∈ allVeterans vetD vetM)
      ∧ "P" ∈ (topScorers vetD vetM).map fun s => s.player := by
  decide

/-- Membership through the batter grouping-key list. -/
theorem mem_battersOf {rows : List DeliveryRow} {b : String}
    (h : b ∈ battersOf rows) : ∃ r ∈ rows, r.batter = b := by
  rw [battersOf, List.mem_dedup] at h
  obtain ⟨r, hr, rfl⟩ := List.mem_map.mp h
  exact ⟨r, hr, rfl⟩

/-- C1 amended: the veteran filters are role-specific. Query 1 and its
result exclude exactly the players of `early_players_bat` (its veteran-only
variant keeps exactly those), and query 4 and its result exclude exactly
the players of `early_players_bowl` (its veteran-only variant keeps exactly
those); a bowler-only veteran is not excluded from the batting query. -/
theorem veteran_filters_role_specific (ds : List DeliveryRow) (ms : List MatchRow) :
    (∀ r ∈ fr1Data ds ms, r.batter ∉ earlyPlayersBat ds ms)
    ∧ (∀ r ∈ fr1VetData ds ms, r.batter ∈ earlyPlayersBat ds ms)
    ∧ (∀ s ∈ topScorers ds ms, s.player ∉ earlyPlayersBat ds ms)
    ∧ (∀ r ∈ fr4Wickets ds ms, r.bowler ∉ earlyPlayersBowl ds ms)
    ∧ (∀ r ∈ fr4VetWickets ds ms, r.bowler ∈ earlyPlayersBowl ds ms)
    ∧ (∀ s ∈ topBowlers ds ms, s.player ∉ earlyPlayersBowl ds ms) := by
  have hfr1 : ∀ r ∈ fr1Data ds ms, r.batter ∉ earlyPlayersBat ds ms := by
    intro r hr
    have := (List.mem_filter.mp hr).2
    simpa using this
  have hfr4 : ∀ r ∈ fr4Wickets ds ms, r.bowler ∉ earlyPlayersBowl ds ms := by
    intro r hr
    have h1 := (List.mem_filter.mp hr).1
    have h2 := (List.mem_filter.mp h1).1
    have := (List.mem_filter.mp h2).2
    simpa using this
  refine ⟨hfr1, ?_, ?_, hfr4, ?_, ?_⟩
  · intro r hr
    have := (List.mem_filter.mp hr).2
    simpa using this
  · intro s hs
    have h1 : s ∈ (((battersOf (fr1Data ds ms)).map
        fun b => ScoreRow.mk b (runsFor (fr1Data ds ms) b)).insertionSort scoreGE) :=
      List.take_subset _ _ hs
    rw [(List.perm_insertionSort scoreGE _).mem_iff] at h1
    obtain ⟨b, hb, rfl⟩ := List.mem_map.mp h1
    obtain ⟨r, hr, hrb⟩ := mem_battersOf hb
    simpa [hrb] using hfr1 r hr
  · intro r hr
    have h1 := (List.mem_filter.mp hr).1
    have h2 := (List.mem_filter.mp h1).1
    have := (List.mem_filter.mp h2).2
    simpa using this
  · intro s hs
    have h1 : s ∈ ((((fr4Wickets ds ms).map fun r => r.bowler).dedup).map
        fun b => ScoreRow.mk b ((fr4Wickets ds ms).filter
          fun r => r.bowler == b).length).insertionSort scoreGE :=
      List.take_subset _ _ hs
    rw [(List.perm_insertionSort scoreGE _).mem_iff] at h1
    obtain ⟨b, hb, rfl⟩ := List.mem_map.mp h1
    rw [List.mem_dedup] at hb
    obtain ⟨r, hr, hrb⟩ := List.mem_map.mp hb
    simpa [hrb] using hfr4 r hr

/-- C1 amended, instantiated: the veteran P does pass query 1's filter
(only batting veterans are excluded there), and the non-veteran batter of
the concrete table is indeed absent from `early_players_bat`. -/
theorem veteran_filters_role_specific_witness :
    d2021.batter ∉ earlyPlayersBat vetD vetM :=
  (veteran_filters_role_specific vetD vetM).1 d2021 (by decide)

/-- C5: every group in the power-hitters output has at least 50 balls
faced; its strike rate is (runs / balls) * 100 with runs and balls the
aggregates of the batter's post-2020 deliveries; the output is sorted
descending by strike rate, has at most 10 rows, and is the top of a
descending-sorted permutation of all kept groups. -/
theorem top_sr_spec (ds : List DeliveryRow) (ms : List MatchRow) :
    (∀ r ∈ top_sr ds ms, 50 ≤ r.balls
        ∧ r.strike_rate = (r.runs : ℚ) / (r.balls : ℚ) * 100
        ∧ r.runs = runsFor (post2020Data ds ms) r.batter
        ∧ r.balls = ballsFor (post2020Data ds ms) r.batter)
    ∧ List.Sorted srGE (top_sr ds ms)
    ∧ (top_sr ds ms).length ≤ 10
    ∧ List.Perm (top_sr ds ms
          ++ ((srRows (post2020Data ds ms)).insertionSort srGE).drop 10)
        (srRows (post2020Data ds ms))
    ∧ List.Sorted srGE (top_sr ds ms
          ++ ((srRows (post2020Data ds ms)).insertionSort srGE).drop 10) := by
  refine ⟨?_, ?_, ?_, ?_, ?_⟩
  · intro r hr
    have h1 : r ∈ (srRows (post2020Data ds ms)).insertionSort srGE :=
      List.take_subset _ _ hr
    rw [(List.perm_insertionSort srGE _).mem_iff] at h1
    obtain ⟨s, hs, rfl⟩ := List.mem_map.mp h1
    have hk := List.mem_filter.mp hs
    have h50 : 50 ≤ s.balls := by simpa using hk.2
    obtain ⟨b, hb, rfl⟩ := List.mem_map.mp hk.1
    exact ⟨h50, rfl, rfl, rfl⟩
  · exact (List.sorted_insertionSort srGE _).sublist (List.take_sublist _ _)
  · simp only [top_sr]
    exact List.length_take_le _ _
  · simp only [top_sr]
    rw [List.take_append_drop]
    exact List.perm_insertionSort srGE _
  · simp only [top_sr]
    rw [List.take_append_drop]
    exact List.sorted_insertionSort srGE _

/-- C5 instantiated: with 50 single-run balls, batter B's row (strike rate
100) is in the output and satisfies the ball-minimum and the strike-rate
formula. -/
theorem top_sr_spec_witness :
    50 ≤ (SRRow.mk "B" 50 50 100).balls
    ∧ (SRRow.mk "B" 50 50 100).strike_rate
        = ((SRRow.mk "B" 50 50 100).runs : ℚ)
          / ((SRRow.mk "B" 50 50 100).balls : ℚ) * 100 := by
  have h1 : keptStats (post2020Data srD srM) = [⟨"B", 50, 50⟩] := by decide
  have h2 : top_sr srD srM = [⟨"B", 50, 50, srOf ⟨"B", 50, 50⟩⟩] := by
    simp only [top_sr, srRows, h1]
    rfl
  have h3 : (srOf ⟨"B", 50, 50⟩) = 100 := by
    simp only [srOf]
    norm_num
  have hmem : SRRow.mk "B" 50 50 100 ∈ top_sr srD srM := by
    rw [h2, h3]
    exact List.mem_singleton.mpr rfl
  have h := (top_sr_spec srD srM).1 _ hmem
  exact ⟨h.1, h.2.1⟩

/-- C7: a match with an unparseable date gets a null year (the run does
not fail), is excluded from every year-filtered quantity (the 2008-2012
veteran-set seasons, the post-2020 match ids, and hence its deliveries
from the post-2020 delivery view) and stays included in the all-time
queries (venue win-probability totals, toss impact, highest chases, top
fielders). -/
theorem null_year_excluded_from_year_filters (ds : List DeliveryRow)
    (ms : List MatchRow) (m : MatchRow)
    (hbad : parseYear m.date = none)
    (hid : ∀ x ∈ ms, x.id ≠ m.id) :
    matchYear m = none
    ∧ yearBetween m 2008 2012 = false
    ∧ yearGt m 2020 = false
    ∧ earlySeasonIds (m :: ms) = earlySeasonIds ms
    ∧ post2020MatchIds (m :: ms) = post2020MatchIds ms
    ∧ venueTotal (m :: ms) m.venue = venueTotal ms m.venue + 1
    ∧ tossImpactWins (m :: ms) m.venue
        = (if m.toss_winner == m.winner then 1 else 0) + tossImpactWins ms m.venue
    ∧ m.id ∉ post2020MatchIds (m :: ms)
    ∧ m.id ∉ earlySeasonIds (m :: ms)
    ∧ (field_first_won m = true → chaseWins (m :: ms) = m :: chaseWins ms)
    ∧ (post2020Data ds (m :: ms)).filter (fun d => d.match_id == m.id) = []
    ∧ (∀ d ∈ ds, d.dismissal_kind = some "caught" → d ∈ catches ds) := by
  have hyear : matchYear m = none := hbad
  have hyb : yearBetween m 2008 2012 = false := by
    simp [yearBetween, hyear]
  have hyg : yearGt m 2020 = false := by
    simp [yearGt, hyear]
  have hearly : earlySeasonIds (m :: ms) = earlySeasonIds ms := by
    simp [earlySeasonIds, List.filter_cons, hyb]
  have hpost : post2020MatchIds (m :: ms) = post2020MatchIds ms := by
    simp [post2020MatchIds, List.filter_cons, hyg]
  have hpostmem : m.id ∉ post2020MatchIds (m :: ms) := by
    rw [hpost]
    simp only [post2020MatchIds, List.mem_map, not_exists]
    rintro x ⟨hx, hxid⟩
    exact hid x (List.mem_filter.mp hx).1 hxid
  have hearlymem : m.id ∉ earlySeasonIds (m :: ms) := by
    rw [hearly]
    simp only [earlySeasonIds, List.mem_map, not_exists]
    rintro x ⟨hx, hxid⟩
    exact hid x (List.mem_filter.mp hx).1 hxid
  refine ⟨hyear, hyb, hyg, hearly, hpost, ?_, ?_, hpostmem, hearlymem, ?_, ?_, ?_⟩
  · simp [venueTotal, matchesAtVenue, List.filter_cons]
  · simp [tossImpactWins, matchesAtVenue, List.filter_cons]
  · intro hf
    simp [chaseWins, List.filter_cons, hf]
  · rw [List.filter_eq_nil_iff]
    intro d hd
    have hc := (List.mem_filter.mp hd).2
    rw [hpost] at hc
    simp only [List.contains_eq_any_beq, List.any_eq_true, beq_iff_eq] at hc
    obtain ⟨y, hy, rfl⟩ := hc
    simp only [beq_iff_eq, Bool.not_eq_true]
    intro hdm
    simp only [post2020MatchIds, List.mem_map] at hy
    obtain ⟨x, hx, hxid⟩ := hy
    exact hid x (List.mem_filter.mp hx).1 (by omega)
  · intro d hd hk
    exact List.mem_filter.mpr ⟨hd, by simp [hk]⟩

/-- C7 instantiated: the unparseable-date match gets a null year yet still
increments its venue's all-time match total. -/
theorem null_year_excluded_witness :
    matchYear mBad = none
    ∧ venueTotal (mBad :: [m2021]) mBad.venue
        = venueTotal [m2021] mBad.venue + 1 := by
  have h := null_year_excluded_from_year_filters [d2021] [m2021] mBad
    (by decide) (by decide)
  exact ⟨h.1, h.2.2.2.2.2.1⟩

/-- Per match, the two win indicators sum to the decisive-result indicator
when the toss decision is bat or field. -/
theorem batff_indicator (m : MatchRow)
    (htd : m.toss_decision = "bat" ∨ m.toss_decision = "field") :
    (if bat_first_won m then 1 else 0) + (if field_first_won m then 1 else 0)
      = if decidedMatch m then 1 else 0 := by
  by_cases h1 : m.result = "tie"
  · simp [bat_first_won, field_first_won, decidedMatch, h1]
  by_cases h2 : m.result = "no result"
  · simp [bat_first_won, field_first_won, decidedMatch, h1, h2]
  rcases htd with h | h <;>
    by_cases h3 : m.toss_winner = m.winner <;>
      simp [bat_first_won, field_first_won, decidedMatch, bne, h, h1, h2, h3]

/-- Summed over a match list with bat/field decisions, bat-first wins plus
field-first wins equal the number of decisive results. -/
theorem sum_batff_eq_decided (l : List MatchRow)
    (htd : ∀ m ∈ l, m.toss_decision = "bat" ∨ m.toss_decision = "field") :
    (l.map fun m => if bat_first_won m then 1 else 0).sum
        + (l.map fun m => if field_first_won m then 1 else 0).sum
      = (l.map fun m => if decidedMatch m then 1 else 0).sum := by
  induction l with
  | nil => simp
  | cons m t ih =>
    have hm := htd m (List.mem_cons_self m t)
    have ht := fun x hx => htd x (List.mem_cons_of_mem m hx)
    have h1 := batff_indicator m hm
    have h2 := ih ht
    simp only [List.map_cons, List.sum_cons]
    omega

/-- The number of decisive results is at most the number of matches, with
equality exactly when every result is decisive. -/
theorem decided_sum_le_length (l : List MatchRow) :
    (l.map fun m => if decidedMatch m then 1 else 0).sum ≤ l.length
    ∧ ((l.map fun m => if decidedMatch m then 1 else 0).sum = l.length
        ↔ ∀ m ∈ l, decidedMatch m = true) := by
  induction l with
  | nil => simp
  | cons m t ih =>
    simp only [List.map_cons, List.sum_cons, List.length_cons, List.mem_cons,
      forall_eq_or_imp]
    by_cases h : decidedMatch m = true
    · rw [if_pos h]
      refine ⟨by omega, ?_, ?_⟩
      · intro he
        exact ⟨h, ih.2.mp (by omega)⟩
      · intro he
        rw [ih.2.mpr he.2]
        omega
    · rw [if_neg h]
      have h1 := ih.1
      refine ⟨by omega, ?_, ?_⟩
      · intro he
        exfalso
        omega
      · intro he
        exact absurd he.1 h

/-- C6: for a venue of the win-probability table (at least 10 matches,
toss decisions all in {bat, field}), bat-first wins plus field-first wins
never exceed the total match count, with equality exactly when no match at
the venue is a tie / no result. -/
theorem venue_wins_bounded (ms : List MatchRow) (v : String)
    (htd : ∀ m ∈ ms, m.toss_decision = "bat" ∨ m.toss_decision = "field")
    (hmin : 10 ≤ venueTotal ms v) :
    venueBatFirstWins ms v + venueFieldFirstWins ms v ≤ venueTotal ms v
    ∧ (venueBatFirstWins ms v + venueFieldFirstWins ms v = venueTotal ms v
        ↔ ∀ m ∈ matchesAtVenue ms v,
            m.result ≠ "tie" ∧ m.result ≠ "no result") := by
  have hv : ∀ m ∈ matchesAtVenue ms v,
      m.toss_decision = "bat" ∨ m.toss_decision = "field" :=
    fun m hm => htd m (List.mem_filter.mp hm).1
  have hsum := sum_batff_eq_decided (matchesAtVenue ms v) hv
  have hle := decided_sum_le_length (matchesAtVenue ms v)
  have hdec : ∀ m : MatchRow, (decidedMatch m = true
      ↔ m.result ≠ "tie" ∧ m.result ≠ "no result") := by
    intro m
    simp [decidedMatch]
  rw [venueBatFirstWins, venueFieldFirstWins, venueTotal, hsum]
  refine ⟨hle.1, ?_⟩
  rw [hle.2]
  constructor
  · intro h m hm
    exact (hdec m).mp (h m hm)
  · intro h m hm
    exact (hdec m).mpr (h m hm)

/-- C6 instantiated on a venue with exactly 10 decided matches. -/
theorem venue_wins_bounded_witness :
    venueBatFirstWins venueMs "V" + venueFieldFirstWins venueMs "V"
      ≤ venueTotal venueMs "V" :=
  (venue_wins_bounded venueMs "V" (by decide) (by decide)).1

/-- C2 counterexample: on the row with toss_winner="A",
toss_decision="field", winner="B", result="normal", `field_first_won` does
NOT return true — the toss winner A fielded first, so B batted first and
B's win is a bat-first win. -/
theorem c2_field_first_claim_false : ¬ field_first_won c2Match = true := by
  decide

/-- C2 amended: on that row `field_first_won` returns false (and
`bat_first_won` returns true). -/
theorem c2_field_first_amended :
    field_first_won c2Match = false ∧ bat_first_won c2Match = true := by
  decide

/-- C3: on a match with a decision in {bat, field} and a non-empty winner,
`bat_first_won` and `field_first_won` are complementary when the result is
decisive, and both false on a tie / no result. -/
theorem bat_field_first_exclusive (m : MatchRow) (hw : m.winner ≠ "")
    (htd : m.toss_decision = "bat" ∨ m.toss_decision = "field") :
    (m.result ≠ "tie" → m.result ≠ "no result" →
        bat_first_won m = !field_first_won m)
    ∧ ((m.result = "tie" ∨ m.result = "no result") →
        bat_first_won m = false ∧ field_first_won m = false) := by
  constructor
  · intro h1 h2
    rcases htd with h | h <;>
      by_cases h3 : m.toss_winner = m.winner <;>
        simp [bat_first_won, field_first_won, bne, h, h1, h2, h3]
  · intro h
    rcases h with h | h <;> simp [bat_first_won, field_first_won, h]

/-- C3 instantiated on a concrete decided bat-decision match. -/
theorem bat_field_first_exclusive_witness :
    bat_first_won decidedBatMatch = !field_first_won decidedBatMatch :=
  ((bat_field_first_exclusive decidedBatMatch (by decide)
    (by decide)).1) (by decide) (by decide)

/-- C10: on a decided match whose toss decision is neither "bat" nor
"field", both classifiers fall into their else branch and return
`toss_winner != winner`; with toss_winner ≠ winner both are true at once,
so mutual exclusivity depends on the decision being in {bat, field}. -/
theorem odd_decision_both_true (m : MatchRow) (h1 : m.result ≠ "tie")
    (h2 : m.result ≠ "no result") (h3 : m.toss_decision ≠ "bat")
    (h4 : m.toss_decision ≠ "field") :
    bat_first_won m = (m.toss_winner != m.winner)
    ∧ field_first_won m = (m.toss_winner != m.winner)
    ∧ (m.toss_winner ≠ m.winner →
        bat_first_won m = true ∧ field_first_won m = true) := by
  refine ⟨?_, ?_, ?_⟩ <;>
    simp [bat_first_won, field_first_won, h1, h2, h3, h4]

/-- C10 instantiated on a concrete match decided by a non-bat, non-field
toss decision: both classifiers return true together. -/
theorem odd_decision_both_true_witness :
    bat_first_won oddDecisionMatch = true
      ∧ field_first_won oddDecisionMatch = true :=
  (odd_decision_both_true oddDecisionMatch (by decide) (by decide)
      (by decide) (by decide)).2.2 (by decide)

/-- C4: `check_chase`, the classification actually applied per
veteran-team row, computes exactly the §4.2 formula — player won AND
((field decision AND toss winner is the player's team) OR (bat decision
AND toss winner is not the player's team)) — and is not the always-false
stubbed placeholder `is_chase_win`. -/
theorem check_chase_eq_chase_formula :
    (∀ (won : Bool) (td tw team : String),
        check_chase won td tw team
          = (won && ((td == "field" && tw == team) || (td == "bat" && tw != team))))
    ∧ check_chase true "field" "A" "A" = true
    ∧ is_chase_win true = false := by
  refine ⟨fun won td tw team => ?_, by decide, by decide⟩
  cases won with
  | false => simp [check_chase]
  | true =>
    simp only [check_chase, Bool.not_true, Bool.false_eq_true, if_false,
      Bool.true_and]
    cases h1 : (td == "field" && tw == team)
      <;> cases h2 : (td == "bat" && tw != team)
      <;> simp [h1, h2]

/-- No `vet_perf` row can pair player `p` with match `m` when `p` never
batted in `m`: the batting-derived team map has no entry to join on. -/
theorem vetPerf_no_row (ds : List DeliveryRow) (ms : List MatchRow) (p : String)
    (m : MatchRow) (h : ∀ d ∈ ds, d.match_id = m.id → d.batter ≠ p) :
    ∀ r ∈ vetPerf ds ms, r.player = p → r.matchId ≠ m.id := by
  intro r hr hp
  obtain ⟨ptr, hptr, hr2⟩ := List.mem_flatMap.mp hr
  obtain ⟨mm, hmm, rfl⟩ := List.mem_map.mp hr2
  have hpt : ptr ∈ playerTeams ds := (List.mem_filter.mp hptr).1
  rw [playerTeams, List.mem_dedup] at hpt
  obtain ⟨d, hd, rfl⟩ := List.mem_map.mp hpt
  intro hmid
  exact h d hd hmid hp

/-- C8: a veteran who never appears as batter in a match contributes no
`vet_perf` row for that match, so the (player, match) pair is counted in
none of the team-dependent veteran aggregates — match count (win% and
experience) and win and chase-win sums are unchanged when the match's rows
are dropped. -/
theorem unmapped_team_rows_excluded (ds : List DeliveryRow) (ms : List MatchRow)
    (p : String) (m : MatchRow)
    (h : ∀ d ∈ ds, d.match_id = m.id → d.batter ≠ p) :
    ((vetPerf ds ms).filter fun r => r.player == p && r.matchId == m.id) = []
    ∧ playerMatchCount (vetPerf ds ms) p
        = playerMatchCount ((vetPerf ds ms).filter fun r => r.matchId != m.id) p
    ∧ playerWinCount (vetPerf ds ms) p
        = playerWinCount ((vetPerf ds ms).filter fun r => r.matchId != m.id) p
    ∧ playerChaseCount (vetPerf ds ms) p
        = playerChaseCount ((vetPerf ds ms).filter fun r => r.matchId != m.id) p := by
  have key := vetPerf_no_row ds ms p m h
  have hrows : playerRows ((vetPerf ds ms).filter fun r => r.matchId != m.id) p
      = playerRows (vetPerf ds ms) p := by
    rw [playerRows, playerRows, List.filter_filter]
    apply List.filter_congr
    intro r hr
    by_cases hp : r.player = p
    · have hne := key r hr hp
      simp [hp, bne, hne]
    · simp [hp]
  refine ⟨?_, ?_, ?_, ?_⟩
  · rw [List.filter_eq_nil_iff]
    intro r hr
    simp only [Bool.and_eq_true, beq_iff_eq, not_and]
    intro hp
    exact key r hr hp
  · rw [playerMatchCount, playerMatchCount, hrows]
  · rw [playerWinCount, playerWinCount, hrows]
  · rw [playerChaseCount, playerChaseCount, hrows]

/-- C8 instantiated: veteran P only bowled in the 2010 match, and indeed
no veteran-performance row pairs P with that match. -/
theorem unmapped_team_rows_excluded_witness :
    ((vetPerf vetD vetM).filter
      fun r => r.player == "P" && r.matchId == m2010.id) = [] :=
  (unmapped_team_rows_excluded vetD vetM "P" m2010 (by decide)).1

/-- With pairwise-distinct match ids, the per-delivery match lookup of the
left merge is `find?`. -/
theorem filter_id_eq_find (ms : List MatchRow) (x : Nat)
    (h : (ms.map fun m => m.id).Nodup) :
    (ms.filter fun m => m.id == x)
      = match ms.find? fun m => m.id == x with
        | some m => [m]
        | none => [] := by
  induction ms with
  | nil => simp
  | cons m t ih =>
    rw [List.map_cons, List.nodup_cons] at h
    by_cases hm : m.id = x
    · rw [List.filter_cons_of_pos (by simp [hm]),
        List.find?_cons_of_pos _ (by simp [hm])]
      have ht : (t.filter fun y => y.id == x) = [] := by
        rw [List.filter_eq_nil_iff]
        intro y hy
        simp only [beq_iff_eq]
        intro hyx
        apply h.1
        have hmem : y.id ∈ t.map fun z => z.id :=
          List.mem_map_of_mem (fun z => z.id) hy
        rw [hyx, ← hm] at hmem
        exact hmem
      rw [ht]
    · rw [List.filter_cons_of_neg (by simp [hm]),
        List.find?_cons_of_neg _ (by simp [hm])]
      exact ih h.2

/-- C9: with unique match ids the left merge yields exactly one output row
per delivery — it equals a per-delivery `find?` lookup, its length is the
deliveries length — and a delivery matching no match id is retained with
null match fields. -/
theorem merge_one_row_per_delivery (ds : List DeliveryRow) (ms : List MatchRow)
    (h : (ms.map fun m => m.id).Nodup) :
    mergedData ds ms
        = ds.map (fun d => ⟨d, ms.find? fun m => m.id == d.match_id⟩)
    ∧ (mergedData ds ms).length = ds.length
    ∧ (∀ d ∈ ds, (∀ m ∈ ms, m.id ≠ d.match_id) →
        MergedRow.mk d none ∈ mergedData ds ms) := by
  have heq : mergedData ds ms
      = ds.map (fun d => ⟨d, ms.find? fun m => m.id == d.match_id⟩) := by
    rw [mergedData]
    induction ds with
    | nil => simp
    | cons d t ih =>
      rw [List.flatMap_cons, List.map_cons, ih]
      rw [filter_id_eq_find ms d.match_id h]
      cases hf : ms.find? fun m => m.id == d.match_id <;> simp [hf]
  refine ⟨heq, by rw [heq, List.length_map], ?_⟩
  intro d hd hnone
  rw [heq]
  have hfn : (ms.find? fun m => m.id == d.match_id) = none := by
    rw [List.find?_eq_none]
    intro m hm
    simp only [beq_iff_eq]
    exact hnone m hm
  exact hfn ▸ List.mem_map_of_mem _ hd

/-- C9 instantiated: one output row for the single delivery whose match_id
matches no match, and that row carries null match fields. -/
theorem merge_one_row_per_delivery_witness :
    (mergedData [dOrphan] vetM).length = ([dOrphan] : List DeliveryRow).length
    ∧ MergedRow.mk dOrphan none ∈ mergedData [dOrphan] vetM :=
  ⟨(merge_one_row_per_delivery [dOrphan] vetM (by decide)).2.1,
    (merge_one_row_per_delivery [dOrphan] vetM (by decide)).2.2 dOrphan
      (by decide) (by decide)⟩
